import Mathlib

/-
  Verification development for the OpenBlock Link simulator server
  (simulador-openblock-link.js / simulador-openblock-link-real.js).

  The JavaScript source is shallowly embedded:
  * the line-scanning "code execution" simulation of handleExecuteCode is a
    pure function over strings (randomness is supplied as explicit Nat
    streams, one value pair per source line, standing for the Math.random()
    draws of the f-string branch);
  * the WebSocket server's mutable state (activeConnections, the per
    connection device Map, the scheduled setTimeout/setInterval callbacks)
    is a record with explicit heap of connection objects, a registry of the
    clientIds currently in activeConnections, a bag of pending scheduled
    callbacks, and a trace of every ws.send call;
  * telemetry timing (setInterval with a once-sampled random period) is a
    small arithmetic model.
-/

/-! ## Generic association-list helpers (model of the JS Map operations) -/

def alookup {α β : Type} [DecidableEq α] (k : α) : List (α × β) → Option β
  | [] => none
  | p :: ps => if p.1 = k then some p.2 else alookup k ps

def removeOne {α : Type} [DecidableEq α] (x : α) : List α → List α
  | [] => []
  | y :: ys => if y = x then ys else y :: removeOne x ys

/-! ## Pure model of the simulated executeCode strategy (part_000 lines 410-447) -/

/-- Model of the character class of the JS regex quote alternatives: a single
quote (codepoint 39) or a double quote (codepoint 34). -/
def isQuote (c : Char) : Bool := (c == Char.ofNat 39) || (c == Char.ofNat 34)

/-- Lazy group of the regex: shortest run of characters followed by a quote
and a closing parenthesis; on failure the quote is absorbed into the group
and the scan continues, matching the non-greedy semantics. -/
def lazyCapture : List Char → Option (List Char)
  | c :: d :: rest =>
    if isQuote c && (d == ')') then some []
    else (lazyCapture (d :: rest)).map (fun g => c :: g)
  | _ => none

/-- Match of the regex for plain print literals anchored at the head of the
character list: the text print, an opening parenthesis, a quote, then the
lazy captured group. -/
def matchPrintAt : List Char → Option (List Char)
  | 'p' :: 'r' :: 'i' :: 'n' :: 't' :: '(' :: q :: rest =>
    if isQuote q then lazyCapture rest else none
  | _ => none

/-- Leftmost match of the plain print regex, as JS String.match finds it. -/
def findPrint : List Char → Option (List Char)
  | [] => none
  | c :: rest =>
    match matchPrintAt (c :: rest) with
    | some g => some g
    | none => findPrint rest

/-- Match of the f-string regex anchored at the head: print, an opening
parenthesis, the letter f, a quote, then the lazy captured group. -/
def matchPrintFAt : List Char → Option (List Char)
  | 'p' :: 'r' :: 'i' :: 'n' :: 't' :: '(' :: 'f' :: q :: rest =>
    if isQuote q then lazyCapture rest else none
  | _ => none

/-- Leftmost match of the f-string print regex. -/
def findPrintF : List Char → Option (List Char)
  | [] => none
  | c :: rest =>
    match matchPrintFAt (c :: rest) with
    | some g => some g
    | none => findPrintF rest

/-- The two placeholder substitutions of the f-string branch: value is
replaced by a sampled number below 1024, angle by one below 180. -/
def substPlaceholders (rv ra : Nat) (s : String) : String :=
  (s.replace "\x7bvalue\x7d" (toString rv)).replace "\x7bangle\x7d" (toString ra)

/-- Model of JS String.prototype.trim on the ASCII whitespace the sources use. -/
def jsTrim (s : String) : String :=
  String.mk (((s.data.dropWhile Char.isWhitespace).reverse.dropWhile Char.isWhitespace).reverse)

/-- True when the trimmed line starts with the comment character. -/
def startsWithHash (s : String) : Bool :=
  match s.data with
  | c :: _ => c == '#'
  | [] => false

/-- Output contributed by one source line, given the two random draws for
that line: the guard skips empty and comment lines, then the plain print
match and the f-string match each push at most one element. -/
def lineOutCore (rv ra : Nat) (t : String) : List String :=
  if !t.data.isEmpty && !startsWithHash t then
    (match findPrint t.data with
     | some g => [String.mk g]
     | none => [])
    ++ (match findPrintF t.data with
        | some g => [substPlaceholders (rv % 1024) (ra % 180) (String.mk g)]
        | none => [])
  else []

/-- Per-line output of the simulated execution: the line is trimmed first. -/
def lineOutput (rv ra : Nat) (line : String) : List String :=
  lineOutCore rv ra (jsTrim line)

/-- Scan of all lines, threading the absolute line index into the random
streams. -/
def linesOutput (rvs ras : Nat → Nat) : Nat → List String → List String
  | _, [] => []
  | i, l :: ls => lineOutput (rvs i) (ras i) l ++ linesOutput rvs ras (i + 1) ls

/-- Model of code.split over the newline separator. -/
def splitOnNl : List Char → List (List Char)
  | [] => [[]]
  | c :: rest =>
    if c = '\n' then [] :: splitOnNl rest
    else
      match splitOnNl rest with
      | [] => [[c]]
      | l :: ls => (c :: l) :: ls

def jsLines (code : String) : List String := (splitOnNl code.data).map String.mk

/-- Model of JS String.prototype.startsWith used as a prefix test on lists. -/
def isLeadOf : List Char → List Char → Bool
  | [], _ => true
  | _ :: _, [] => false
  | a :: as, b :: bs => (a == b) && isLeadOf as bs

/-- Substring occurrence test, the model of JS String.prototype.includes. -/
def occursIn (pat : List Char) : List Char → Bool
  | [] => isLeadOf pat []
  | c :: rest => isLeadOf pat (c :: rest) || occursIn pat rest

def jsIncludes (code pat : String) : Bool := occursIn pat.data code.data

/-- The four canned additions appended after the line scan, keyed on raw
substring containment over the whole code text. -/
def cannedOutputs (code : String) : List String :=
  (if jsIncludes code "led.on()" || jsIncludes code "led.value(1)" then
     ["💡 LED encendido"] else [])
  ++ (if jsIncludes code "led.off()" || jsIncludes code "led.value(0)" then
        ["💡 LED apagado"] else [])
  ++ (if jsIncludes code "time.sleep" then ["⏱️ Esperando..."] else [])
  ++ (if jsIncludes code "while True" then ["🔄 Bucle infinito iniciado"] else [])

/-- The full output list of one simulated execution. -/
def execOutputList (rvs ras : Nat → Nat) (code : String) : List String :=
  linesOutput rvs ras 0 (jsLines code) ++ cannedOutputs code

/-- The output string of the codeExecuted frame: the list joined by newlines. -/
def execOutput (rvs ras : Nat → Nat) (code : String) : String :=
  String.intercalate "\n" (execOutputList rvs ras code)

/-! ## Timing model of the telemetry interval (part_000 lines 564-628)

The source arms the generator with setInterval and computes the delay
expression 1000 plus a scaled Math.random() draw exactly once, when the
device connects; the sampled jitter is modelled as a Nat reduced below 2000. -/

def telemetryPeriod (r : Nat) : Nat := 1000 + r % 2000

/-- Firing instants of a setInterval armed with the once-sampled period. -/
def telemetryFireTime (r n : Nat) : Nat := (n + 1) * telemetryPeriod r

/-- Interval between two consecutive telemetry firings. -/
def telemetryGap (r n : Nat) : Nat :=
  telemetryFireTime r (n + 1) - telemetryFireTime r n

/-- Following the claim's words, for comparison with the code model: a timer
re-armed after every firing with a freshly sampled random interval in the
bounded window, so the n-th inter-frame gap uses the n-th draw of the
stream. -/
def jitteredGap (rs : Nat → Nat) (n : Nat) : Nat := 1000 + rs n % 2000

/-! ## The server state model (part_000)

Connection objects live in a heap keyed by clientId; activeConnections is
the registry of clientIds currently in the JS Map, while closures capture
the connection object itself, so scheduled callbacks reach the heap entry
even after the registry entry was deleted.  Every ws.send call is recorded
in the trace.  Scheduled setTimeout/setInterval callbacks are pending
SimTask values; firing one is a step. -/

structure DeviceSession where
  deviceId : String
  peripheralId : String
  baudrate : Nat
  connectedAt : Nat
  status : String
deriving DecidableEq

structure ConnObj where
  wsOpen : Bool
  devices : List (String × DeviceSession)
deriving DecidableEq

inductive Frame where
  | welcome (clientId : Nat)
  | errorMsg (message : String)
  | deviceList (count : Nat)
  | deviceConnected (deviceId peripheralId : String) (baudrate : Nat)
  | deviceDisconnected (deviceId : String)
  | deviceData (deviceId : String) (time : Nat)
  | deviceStatus (deviceId : String) (connectedAt uptime : Nat)
  | pong (time : Nat)
  | codeUploaded (deviceId : String) (codeLength : Nat) (time : Nat)
  | codeExecuted (deviceId output : String) (time : Nat)
  | codeInjected (deviceId : String)
  | codeOutput (deviceId : String)
  | deviceAction (deviceId action : String)
deriving DecidableEq

/-- One pending scheduled callback.  connectFinish, uploadFinish, execChain,
execFinish, sendDataReply, welcomeAction and picoOut are setTimeout
callbacks; telemetry is the repeating setInterval of
startDeviceDataSimulation. -/
inductive SimTask where
  | connectFinish (clientId : Nat) (deviceId : String) (peripheralId : Option String) (baudrate : Nat)
  | uploadFinish (clientId : Nat) (deviceId code : String)
  | execChain (clientId : Nat) (deviceId code : String)
  | execFinish (clientId : Nat) (deviceId output : String)
  | telemetry (clientId : Nat) (deviceId : String)
  | sendDataReply (clientId : Nat) (deviceId : String)
  | welcomeAction (clientId : Nat) (deviceId : String)
  | picoOut (clientId : Nat)
deriving DecidableEq

/-- Inbound client message: the type tag plus the fields the handlers
destructure. -/
structure RawMsg where
  type : String
  deviceId : String
  peripheralId : Option String
  baudrate : Option Nat
  code : String

structure ServerState where
  heap : List (Nat × ConnObj)
  registry : List Nat
  tasks : List SimTask
  trace : List (Nat × Frame)
  nextId : Nat
  clock : Nat
  rvs : Nat → Nat
  ras : Nat → Nat

/-- Identifiers of SIMULATED_DEVICES, the static device catalog. -/
def catalogIds : List String := ["arduino-uno", "microbit-v2", "raspberry-pico"]

/-- SIMULATED_DEVICES is a plain object literal, so the bracket lookup in
the guard also finds the properties inherited from Object.prototype; their
values (functions, and the prototype object for the accessor) are all
truthy, so the not-found guard does not fire for these names. -/
def protoKeys : List String :=
  ["constructor", "hasOwnProperty", "isPrototypeOf", "propertyIsEnumerable",
   "toLocaleString", "toString", "valueOf", "__defineGetter__", "__defineSetter__",
   "__lookupGetter__", "__lookupSetter__", "__proto__"]

/-- The port field of each catalog entry. -/
def devicePort (deviceId : String) : String :=
  if deviceId = "arduino-uno" then "COM3"
  else if deviceId = "microbit-v2" then "COM4"
  else if deviceId = "raspberry-pico" then "COM5"
  else ""

/-- activeConnections.get: the heap entry, visible only while registered. -/
def lookupConn (s : ServerState) (cid : Nat) : Option ConnObj :=
  if cid ∈ s.registry then alookup cid s.heap else none

/-- A ws.send call on the connection's socket. -/
def sendTo (s : ServerState) (cid : Nat) (f : Frame) : ServerState :=
  { s with trace := s.trace ++ [(cid, f)] }

/-- Scheduling a setTimeout/setInterval callback. -/
def addTask (s : ServerState) (t : SimTask) : ServerState :=
  { s with tasks := s.tasks ++ [t] }

/-- Consuming a fired one-shot callback (or a self-cancelled interval). -/
def dropTask (s : ServerState) (t : SimTask) : ServerState :=
  { s with tasks := removeOne t s.tasks }

def updHeap (cid : Nat) (f : ConnObj → ConnObj) : List (Nat × ConnObj) → List (Nat × ConnObj) :=
  List.map (fun p => if p.1 = cid then (p.1, f p.2) else p)

/-- Mutation of the captured connection object. -/
def updConn (s : ServerState) (cid : Nat) (f : ConnObj → ConnObj) : ServerState :=
  { s with heap := updHeap cid f s.heap }

/-- The session stored for deviceId at the connection, if any. -/
def sessionOf (s : ServerState) (cid : Nat) (deviceId : String) : Option DeviceSession :=
  match alookup cid s.heap with
  | none => none
  | some conn => alookup deviceId conn.devices

/-- Map.delete on the device map. -/
def deleteDev (k : String) : List (String × DeviceSession) → List (String × DeviceSession)
  | [] => []
  | p :: ps => if p.1 = k then deleteDev k ps else p :: deleteDev k ps

/-- The JS truthiness fallback peripheralId or device.port. -/
def jsOr (pid : Option String) (dflt : String) : String :=
  match pid with
  | some p => if p.data.isEmpty then dflt else p
  | none => dflt

/-! ### Message handlers (synchronous parts, part_000 lines 142-459) -/

def handleGetDeviceList (s : ServerState) (cid : Nat) : ServerState :=
  match lookupConn s cid with
  | none => s
  | some _ => sendTo s cid (.deviceList 3)

/-- The guard is the truthiness of the plain-object lookup
SIMULATED_DEVICES[deviceId]: an own catalog key hits, and so does any
property name inherited from Object.prototype (prototype-chain lookup), in
which case no error is sent and the delayed completion is scheduled for a
non-catalog deviceId. -/
def handleConnectDevice (s : ServerState) (cid : Nat) (deviceId : String)
    (pid : Option String) (baud : Nat) : ServerState :=
  match lookupConn s cid with
  | none => s
  | some _ =>
    if deviceId ∈ catalogIds ∨ deviceId ∈ protoKeys then
      addTask s (.connectFinish cid deviceId pid baud)
    else
      sendTo s cid (.errorMsg ("Dispositivo no encontrado: " ++ deviceId))

def handleDisconnectDevice (s : ServerState) (cid : Nat) (deviceId : String) : ServerState :=
  match lookupConn s cid with
  | none => s
  | some conn =>
    match alookup deviceId conn.devices with
    | some _ =>
      sendTo (updConn s cid (fun c => { c with devices := deleteDev deviceId c.devices }))
        cid (.deviceDisconnected deviceId)
    | none => sendTo s cid (.errorMsg ("Dispositivo " ++ deviceId ++ " no está conectado"))

def handleSendData (s : ServerState) (cid : Nat) (deviceId : String) : ServerState :=
  match lookupConn s cid with
  | none => s
  | some conn =>
    match alookup deviceId conn.devices with
    | some _ => addTask s (.sendDataReply cid deviceId)
    | none => sendTo s cid (.errorMsg ("Dispositivo " ++ deviceId ++ " no está conectado"))

def handleGetDeviceStatus (s : ServerState) (cid : Nat) (deviceId : String) : ServerState :=
  match lookupConn s cid with
  | none => s
  | some conn =>
    match alookup deviceId conn.devices with
    | some dev => sendTo s cid (.deviceStatus deviceId dev.connectedAt (s.clock - dev.connectedAt))
    | none => sendTo s cid (.errorMsg ("Dispositivo " ++ deviceId ++ " no está conectado"))

def handlePing (s : ServerState) (cid : Nat) : ServerState :=
  match lookupConn s cid with
  | none => s
  | some _ => sendTo s cid (.pong s.clock)

def handleUploadCode (s : ServerState) (cid : Nat) (deviceId code : String) : ServerState :=
  match lookupConn s cid with
  | none => s
  | some conn =>
    match alookup deviceId conn.devices with
    | some _ => addTask s (.uploadFinish cid deviceId code)
    | none => sendTo s cid (.errorMsg ("Dispositivo " ++ deviceId ++ " no está conectado"))

/-- handleExecuteCode computes the simulated output synchronously and then
schedules the delayed codeExecuted send. -/
def handleExecuteCode (s : ServerState) (cid : Nat) (deviceId code : String) : ServerState :=
  match lookupConn s cid with
  | none => s
  | some conn =>
    match alookup deviceId conn.devices with
    | some _ => addTask s (.execFinish cid deviceId (execOutput s.rvs s.ras code))
    | none => sendTo s cid (.errorMsg ("Dispositivo " ++ deviceId ++ " no está conectado"))

def recognizedTypes : List String :=
  ["getDeviceList", "connectDevice", "disconnectDevice", "sendData",
   "getDeviceStatus", "ping", "uploadCode", "executeCode"]

/-- The dispatcher switch of handleMessage. -/
def handleMessage (s : ServerState) (cid : Nat) (m : RawMsg) : ServerState :=
  match lookupConn s cid with
  | none => s
  | some _ =>
    if m.type = "getDeviceList" then handleGetDeviceList s cid
    else if m.type = "connectDevice" then
      handleConnectDevice s cid m.deviceId m.peripheralId (m.baudrate.getD 9600)
    else if m.type = "disconnectDevice" then handleDisconnectDevice s cid m.deviceId
    else if m.type = "sendData" then handleSendData s cid m.deviceId
    else if m.type = "getDeviceStatus" then handleGetDeviceStatus s cid m.deviceId
    else if m.type = "ping" then handlePing s cid
    else if m.type = "uploadCode" then handleUploadCode s cid m.deviceId m.code
    else if m.type = "executeCode" then handleExecuteCode s cid m.deviceId m.code
    else sendTo s cid (.errorMsg ("Tipo de mensaje no soportado: " ++ m.type))

/-! ### Delayed callbacks -/

/-- startDeviceDataSimulation re-fetches the connection from the registry
and the session from the device map, then arms the interval. -/
def startDeviceDataSimulation (s : ServerState) (cid : Nat) (deviceId : String) : ServerState :=
  match lookupConn s cid with
  | none => s
  | some conn =>
    match alookup deviceId conn.devices with
    | none => s
    | some _ => addTask s (.telemetry cid deviceId)

/-- handleDeviceSpecificActions re-fetches the connection and schedules the
per-device welcome action for the three catalog devices. -/
def handleDeviceSpecificActions (s : ServerState) (cid : Nat) (deviceId : String) : ServerState :=
  match lookupConn s cid with
  | none => s
  | some _ =>
    if deviceId ∈ catalogIds then addTask s (.welcomeAction cid deviceId) else s

/-- The delayed body of handleConnectDevice: it reads the captured
connection object (the heap entry, regardless of the registry), re-checks
only the device map, then creates the session, sends deviceConnected and
starts the simulation helpers. -/
def connectDeviceFinish (s : ServerState) (cid : Nat) (deviceId : String)
    (pid : Option String) (baud : Nat) : ServerState :=
  match alookup cid s.heap with
  | none => s
  | some conn =>
    match alookup deviceId conn.devices with
    | some _ => sendTo s cid (.errorMsg ("Dispositivo " ++ deviceId ++ " ya está conectado"))
    | none =>
      let sess : DeviceSession :=
        { deviceId := deviceId, peripheralId := jsOr pid (devicePort deviceId),
          baudrate := baud, connectedAt := s.clock, status := "connected" }
      let s2 := sendTo (updConn s cid (fun c => { c with devices := c.devices ++ [(deviceId, sess)] }))
        cid (.deviceConnected deviceId sess.peripheralId baud)
      handleDeviceSpecificActions (startDeviceDataSimulation s2 cid deviceId) cid deviceId

/-- One firing of the telemetry setInterval: the liveness check reads the
captured connection object; when the session is gone the interval clears
itself, otherwise it sends a deviceData frame and stays armed. -/
def telemetryFire (s : ServerState) (cid : Nat) (deviceId : String) : ServerState :=
  match alookup cid s.heap with
  | none => s
  | some conn =>
    match alookup deviceId conn.devices with
    | some _ => sendTo s cid (.deviceData deviceId s.clock)
    | none => dropTask s (.telemetry cid deviceId)

/-- The delayed body of handleUploadCode: no re-validation at all; it sends
codeUploaded on the captured socket and schedules the automatic execute. -/
def uploadCodeFinish (s : ServerState) (cid : Nat) (deviceId code : String) : ServerState :=
  addTask (sendTo s cid (.codeUploaded deviceId code.length s.clock)) (.execChain cid deviceId code)

/-- The welcome-action callbacks, sending on the captured socket. -/
def welcomeActionFire (s : ServerState) (cid : Nat) (deviceId : String) : ServerState :=
  if deviceId = "raspberry-pico" then addTask (sendTo s cid (.codeInjected deviceId)) (.picoOut cid)
  else if deviceId = "arduino-uno" then sendTo s cid (.deviceAction deviceId "led_blink")
  else if deviceId = "microbit-v2" then sendTo s cid (.deviceAction deviceId "led_pattern")
  else s

/-- Firing one pending scheduled callback. -/
def fireTask (s : ServerState) (t : SimTask) : ServerState :=
  match t with
  | .telemetry cid deviceId => telemetryFire s cid deviceId
  | .connectFinish cid deviceId pid baud =>
    connectDeviceFinish (dropTask s (.connectFinish cid deviceId pid baud)) cid deviceId pid baud
  | .uploadFinish cid deviceId code =>
    uploadCodeFinish (dropTask s (.uploadFinish cid deviceId code)) cid deviceId code
  | .execChain cid deviceId code =>
    handleExecuteCode (dropTask s (.execChain cid deviceId code)) cid deviceId code
  | .execFinish cid deviceId out =>
    sendTo (dropTask s (.execFinish cid deviceId out)) cid (.codeExecuted deviceId out s.clock)
  | .sendDataReply cid deviceId =>
    sendTo (dropTask s (.sendDataReply cid deviceId)) cid (.deviceData deviceId s.clock)
  | .welcomeAction cid deviceId =>
    welcomeActionFire (dropTask s (.welcomeAction cid deviceId)) cid deviceId
  | .picoOut cid => sendTo (dropTask s (.picoOut cid)) cid (.codeOutput "raspberry-pico")

/-! ### Connection lifecycle -/

/-- A new WebSocket connection: fresh clientId, heap entry, registry entry
and the welcome frame. -/
def connectClient (s : ServerState) : ServerState :=
  sendTo { s with nextId := s.nextId + 1,
                  heap := s.heap ++ [(s.nextId + 1, { wsOpen := true, devices := [] })],
                  registry := s.registry ++ [s.nextId + 1] }
    (s.nextId + 1) (.welcome (s.nextId + 1))

/-- The close handler: activeConnections.delete only; the heap object (and
every closure holding it) survives, and no timer is touched. -/
def wsClose (s : ServerState) (cid : Nat) : ServerState :=
  { s with heap := updHeap cid (fun c => { c with wsOpen := false }) s.heap,
           registry := removeOne cid s.registry }

def advClock (s : ServerState) (d : Nat) : ServerState := { s with clock := s.clock + d }

def initServer (rvs ras : Nat → Nat) : ServerState :=
  { heap := [], registry := [], tasks := [], trace := [],
    nextId := 0, clock := 0, rvs := rvs, ras := ras }

/-- One step of the event loop. -/
inductive SimStep : ServerState → ServerState → Prop where
  | newConn (s : ServerState) : SimStep s (connectClient s)
  | msg (s : ServerState) (cid : Nat) (m : RawMsg) : SimStep s (handleMessage s cid m)
  | fire (s : ServerState) (t : SimTask) (h : t ∈ s.tasks) : SimStep s (fireTask s t)
  | close (s : ServerState) (cid : Nat) : SimStep s (wsClose s cid)
  | tick (s : ServerState) (d : Nat) : SimStep s (advClock s d)

/-- States the server can actually be in. -/
inductive Reachable : ServerState → Prop where
  | init (rvs ras : Nat → Nat) : Reachable (initServer rvs ras)
  | step {s s' : ServerState} : Reachable s → SimStep s s' → Reachable s'

/-! ## The structural invariant: every live or pending device id is a
truthy key of the device catalog object, that is an own catalog id or an
inherited Object.prototype property name (device sessions are only ever
created by connectDeviceFinish, whose task is only scheduled after the
truthiness guard). -/

def taskOk : SimTask → Prop
  | .connectFinish _ d _ _ => d ∈ catalogIds ∨ d ∈ protoKeys
  | _ => True

def WF (s : ServerState) : Prop :=
  (∀ p ∈ s.heap, ∀ q ∈ p.2.devices, q.1 ∈ catalogIds ∨ q.1 ∈ protoKeys) ∧
  (∀ t ∈ s.tasks, taskOk t)

/-! ## Concrete scenario states used by the closed theorems -/

def zs : Nat → Nat := fun _ => 0

/-- One fresh client connection (clientId 1) on an otherwise empty server. -/
def st0 : ServerState := connectClient (initServer zs zs)

def connMsg : RawMsg :=
  { type := "connectDevice", deviceId := "arduino-uno", peripheralId := none,
    baudrate := none, code := "" }

/-- Client 1 with arduino-uno attached: the connectDevice message was
dispatched and its delayed completion has fired, arming the telemetry
interval and the welcome action. -/
def stC : ServerState :=
  fireTask (handleMessage st0 1 connMsg) (.connectFinish 1 "arduino-uno" none 9600)

def upMsg : RawMsg :=
  { type := "uploadCode", deviceId := "arduino-uno", peripheralId := none,
    baudrate := none, code := "x" }

def dcMsg : RawMsg :=
  { type := "disconnectDevice", deviceId := "arduino-uno", peripheralId := none,
    baudrate := none, code := "" }

/-- After stC: an uploadCode was accepted (its delayed completion still
pending) and then the device was disconnected, so the pending completion is
stale. -/
def stStale : ServerState := handleMessage (handleMessage stC 1 upMsg) 1 dcMsg

/-- The session connectDeviceFinish creates for arduino-uno at clock 0. -/
def sess0 : DeviceSession :=
  { deviceId := "arduino-uno", peripheralId := "COM3", baudrate := 9600,
    connectedAt := 0, status := "connected" }

def conn0 : ConnObj := { wsOpen := true, devices := [("arduino-uno", sess0)] }

/-- The session that the delayed connect completion builds for the
inherited property name constructor: the spread of the inherited function
value contributes no own fields, device.port is undefined (modelled as the
empty string), and the Map stores it under the key constructor. -/
def sessCtor : DeviceSession :=
  { deviceId := "constructor", peripheralId := "", baudrate := 9600,
    connectedAt := 0, status := "connected" }

/-- The uploadCode pipeline run to completion with no interleaved events:
the handler, then its delayed completion, then the automatic execute
chain, then the delayed codeExecuted send. -/
def chainRun (s : ServerState) (cid : Nat) (deviceId code : String) : ServerState :=
  fireTask (fireTask (fireTask (handleUploadCode s cid deviceId code)
    (.uploadFinish cid deviceId code)) (.execChain cid deviceId code))
    (.execFinish cid deviceId (execOutput s.rvs s.ras code))

def badMsg : RawMsg :=
  { type := "frobnicate", deviceId := "", peripheralId := none, baudrate := none, code := "" }

/-! ## Basic lemmas about the helpers -/

theorem mem_removeOne {α : Type} [DecidableEq α] {x y : α} {l : List α}
    (h : x ∈ removeOne y l) : x ∈ l := by
  induction l with
  | nil => simp [removeOne] at h
  | cons a as ih =>
    rw [removeOne] at h
    split at h
    · exact List.mem_cons_of_mem _ h
    · rcases List.mem_cons.mp h with h | h
      · exact h ▸ List.mem_cons_self _ _
      · exact List.mem_cons_of_mem _ (ih h)

theorem alookup_mem {α β : Type} [DecidableEq α] {k : α} {v : β} :
    ∀ {l : List (α × β)}, alookup k l = some v → (k, v) ∈ l := by
  intro l
  induction l with
  | nil => intro h; simp [alookup] at h
  | cons p ps ih =>
    intro h
    rw [alookup] at h
    split at h
    · next heq =>
      obtain ⟨a, b⟩ := p
      simp only at heq
      subst heq
      rw [Option.some_inj] at h
      subst h
      exact List.mem_cons_self _ _
    · exact List.mem_cons_of_mem _ (ih h)

theorem alookup_none_of_keys {β : Type} {ds : List (String × β)} {d : String}
    (h : ∀ q ∈ ds, q.1 ∈ catalogIds ∨ q.1 ∈ protoKeys)
    (hd : ¬(d ∈ catalogIds ∨ d ∈ protoKeys)) : alookup d ds = none := by
  induction ds with
  | nil => rfl
  | cons q qs ih =>
    rw [alookup, if_neg]
    · exact ih fun r hr => h r (List.mem_cons_of_mem _ hr)
    · intro hqd
      exact hd (hqd ▸ h q (List.mem_cons_self _ _))

theorem alookup_updHeap (cid : Nat) (f : ConnObj → ConnObj) (l : List (Nat × ConnObj)) :
    alookup cid (updHeap cid f l) = (alookup cid l).map f := by
  induction l with
  | nil => rfl
  | cons p ps ih =>
    simp only [updHeap, List.map] at ih ⊢
    by_cases hp : p.1 = cid
    · simp [alookup, hp]
    · simp [alookup, hp, ih]

theorem mem_deleteDev {k : String} {q : String × DeviceSession}
    {ds : List (String × DeviceSession)} (h : q ∈ deleteDev k ds) : q ∈ ds := by
  induction ds with
  | nil => simp [deleteDev] at h
  | cons p ps ih =>
    rw [deleteDev] at h
    split at h
    · exact List.mem_cons_of_mem _ (ih h)
    · rcases List.mem_cons.mp h with h | h
      · exact h ▸ List.mem_cons_self _ _
      · exact List.mem_cons_of_mem _ (ih h)

theorem alookup_deleteDev (k : String) (ds : List (String × DeviceSession)) :
    alookup k (deleteDev k ds) = none := by
  induction ds with
  | nil => rfl
  | cons p ps ih =>
    by_cases hp : p.1 = k
    · simpa [deleteDev, hp] using ih
    · simpa [deleteDev, alookup, hp] using ih

theorem wf_sendTo {s : ServerState} {cid : Nat} {f : Frame} (h : WF s) : WF (sendTo s cid f) := h

theorem wf_advClock {s : ServerState} {d : Nat} (h : WF s) : WF (advClock s d) := h

theorem wf_dropTask {s : ServerState} {t : SimTask} (h : WF s) : WF (dropTask s t) :=
  ⟨h.1, fun u hu => h.2 u (mem_removeOne hu)⟩

theorem wf_addTask {s : ServerState} {t : SimTask} (h : WF s) (ht : taskOk t) :
    WF (addTask s t) := by
  refine ⟨h.1, fun u hu => ?_⟩
  rcases List.mem_append.mp hu with hu | hu
  · exact h.2 u hu
  · rw [List.mem_singleton] at hu
    exact hu ▸ ht

theorem wf_updConn {s : ServerState} {cid : Nat} {f : ConnObj → ConnObj} (h : WF s)
    (hf : ∀ c : ConnObj, (∀ q ∈ c.devices, q.1 ∈ catalogIds ∨ q.1 ∈ protoKeys) →
      ∀ q ∈ (f c).devices, q.1 ∈ catalogIds ∨ q.1 ∈ protoKeys) :
    WF (updConn s cid f) := by
  refine ⟨fun p hp => ?_, h.2⟩
  have hp' : p ∈ List.map (fun p => if p.1 = cid then (p.1, f p.2) else p) s.heap := hp
  rcases List.mem_map.mp hp' with ⟨q, hq, rfl⟩
  by_cases h1 : q.1 = cid
  · rw [if_pos h1]
    exact hf q.2 (h.1 q hq)
  · rw [if_neg h1]
    exact h.1 q hq

theorem wf_handleGetDeviceList {s : ServerState} {cid : Nat} (h : WF s) :
    WF (handleGetDeviceList s cid) := by
  unfold handleGetDeviceList
  repeat' split
  · exact h
  · exact wf_sendTo h

theorem wf_handleConnectDevice {s : ServerState} {cid : Nat} {deviceId : String}
    {pid : Option String} {baud : Nat} (h : WF s) :
    WF (handleConnectDevice s cid deviceId pid baud) := by
  unfold handleConnectDevice
  repeat' split
  · exact h
  · next hd => exact wf_addTask h hd
  · exact wf_sendTo h

theorem wf_handleDisconnectDevice {s : ServerState} {cid : Nat} {deviceId : String} (h : WF s) :
    WF (handleDisconnectDevice s cid deviceId) := by
  unfold handleDisconnectDevice
  repeat' split
  · exact h
  · exact wf_sendTo (wf_updConn h fun c1 hc1 q hq => hc1 q (mem_deleteDev hq))
  · exact wf_sendTo h

theorem wf_handleSendData {s : ServerState} {cid : Nat} {deviceId : String} (h : WF s) :
    WF (handleSendData s cid deviceId) := by
  unfold handleSendData
  repeat' split
  · exact h
  · exact wf_addTask h (show taskOk (SimTask.sendDataReply cid deviceId) from True.intro)
  · exact wf_sendTo h

theorem wf_handleGetDeviceStatus {s : ServerState} {cid : Nat} {deviceId : String} (h : WF s) :
    WF (handleGetDeviceStatus s cid deviceId) := by
  unfold handleGetDeviceStatus
  repeat' split
  · exact h
  · exact wf_sendTo h
  · exact wf_sendTo h

theorem wf_handlePing {s : ServerState} {cid : Nat} (h : WF s) : WF (handlePing s cid) := by
  unfold handlePing
  repeat' split
  · exact h
  · exact wf_sendTo h

theorem wf_handleUploadCode {s : ServerState} {cid : Nat} {deviceId code : String} (h : WF s) :
    WF (handleUploadCode s cid deviceId code) := by
  unfold handleUploadCode
  repeat' split
  · exact h
  · exact wf_addTask h (show taskOk (SimTask.uploadFinish cid deviceId code) from True.intro)
  · exact wf_sendTo h

theorem wf_handleExecuteCode {s : ServerState} {cid : Nat} {deviceId code : String} (h : WF s) :
    WF (handleExecuteCode s cid deviceId code) := by
  unfold handleExecuteCode
  repeat' split
  · exact h
  · next dev hdev =>
    exact wf_addTask h
      (show taskOk (SimTask.execFinish cid deviceId (execOutput s.rvs s.ras code)) from True.intro)
  · exact wf_sendTo h

theorem wf_handleMessage {s : ServerState} {cid : Nat} {m : RawMsg} (h : WF s) :
    WF (handleMessage s cid m) := by
  unfold handleMessage
  repeat' split
  · exact h
  · exact wf_handleGetDeviceList h
  · exact wf_handleConnectDevice h
  · exact wf_handleDisconnectDevice h
  · exact wf_handleSendData h
  · exact wf_handleGetDeviceStatus h
  · exact wf_handlePing h
  · exact wf_handleUploadCode h
  · exact wf_handleExecuteCode h
  · exact wf_sendTo h

theorem wf_startDeviceDataSimulation {s : ServerState} {cid : Nat} {deviceId : String}
    (h : WF s) : WF (startDeviceDataSimulation s cid deviceId) := by
  unfold startDeviceDataSimulation
  repeat' split
  · exact h
  · exact h
  · exact wf_addTask h (show taskOk (SimTask.telemetry cid deviceId) from True.intro)

theorem wf_handleDeviceSpecificActions {s : ServerState} {cid : Nat} {deviceId : String}
    (h : WF s) : WF (handleDeviceSpecificActions s cid deviceId) := by
  unfold handleDeviceSpecificActions
  repeat' split
  · exact h
  · exact wf_addTask h (show taskOk (SimTask.welcomeAction cid deviceId) from True.intro)
  · exact h

theorem wf_connectDeviceFinish {s : ServerState} {cid : Nat} {deviceId : String}
    {pid : Option String} {baud : Nat} (h : WF s)
    (hd : deviceId ∈ catalogIds ∨ deviceId ∈ protoKeys) :
    WF (connectDeviceFinish s cid deviceId pid baud) := by
  unfold connectDeviceFinish
  repeat' split
  · exact h
  · exact wf_sendTo h
  · refine wf_handleDeviceSpecificActions (wf_startDeviceDataSimulation
      (wf_sendTo (wf_updConn h fun c1 hc1 q hq => ?_)))
    rcases List.mem_append.mp hq with hq | hq
    · exact hc1 q hq
    · rw [List.mem_singleton] at hq
      subst hq
      exact hd

theorem wf_telemetryFire {s : ServerState} {cid : Nat} {deviceId : String} (h : WF s) :
    WF (telemetryFire s cid deviceId) := by
  unfold telemetryFire
  repeat' split
  · exact h
  · exact wf_sendTo h
  · exact wf_dropTask h

theorem wf_welcomeActionFire {s : ServerState} {cid : Nat} {deviceId : String} (h : WF s) :
    WF (welcomeActionFire s cid deviceId) := by
  unfold welcomeActionFire
  repeat' split
  · exact wf_addTask (wf_sendTo h) (show taskOk (SimTask.picoOut cid) from True.intro)
  · exact wf_sendTo h
  · exact wf_sendTo h
  · exact h

theorem wf_fireTask {s : ServerState} {t : SimTask} (h : WF s) (ht : taskOk t) :
    WF (fireTask s t) := by
  cases t with
  | telemetry cid d => exact wf_telemetryFire h
  | connectFinish cid d pid b => exact wf_connectDeviceFinish (wf_dropTask h) ht
  | uploadFinish cid d code =>
    exact wf_addTask (wf_sendTo (wf_dropTask h))
      (show taskOk (SimTask.execChain cid d code) from True.intro)
  | execChain cid d code => exact wf_handleExecuteCode (wf_dropTask h)
  | execFinish cid d out => exact wf_sendTo (wf_dropTask h)
  | sendDataReply cid d => exact wf_sendTo (wf_dropTask h)
  | welcomeAction cid d => exact wf_welcomeActionFire (wf_dropTask h)
  | picoOut cid => exact wf_sendTo (wf_dropTask h)

theorem wf_connectClient {s : ServerState} (h : WF s) : WF (connectClient s) := by
  refine ⟨fun p hp => ?_, h.2⟩
  have hp' : p ∈ s.heap ++ [((s.nextId + 1 : Nat), ({ wsOpen := true, devices := [] } : ConnObj))] := hp
  rcases List.mem_append.mp hp' with hp1 | hp1
  · exact h.1 p hp1
  · rw [List.mem_singleton] at hp1
    subst hp1
    intro q hq
    simp at hq

theorem wf_wsClose {s : ServerState} {cid : Nat} (h : WF s) : WF (wsClose s cid) := by
  refine ⟨fun p hp => ?_, h.2⟩
  have hp' : p ∈ List.map
      (fun p => if p.1 = cid then (p.1, { p.2 with wsOpen := false }) else p) s.heap := hp
  rcases List.mem_map.mp hp' with ⟨q, hq, rfl⟩
  by_cases h1 : q.1 = cid
  · rw [if_pos h1]
    exact h.1 q hq
  · rw [if_neg h1]
    exact h.1 q hq

theorem wf_step {s s' : ServerState} (h : WF s) (hs : SimStep s s') : WF s' := by
  cases hs with
  | newConn => exact wf_connectClient h
  | msg cid m => exact wf_handleMessage h
  | fire t htm => exact wf_fireTask h (h.2 t htm)
  | close cid => exact wf_wsClose h
  | tick d => exact wf_advClock h

theorem reachable_wf {s : ServerState} (h : Reachable s) : WF s := by
  induction h with
  | init rvs ras =>
    exact ⟨fun p hp => by simp [initServer] at hp, fun t ht => by simp [initServer] at ht⟩
  | step hr hstep ih => exact wf_step ih hstep

/-! ## Projection lemmas for the small state transformers -/

@[simp] theorem sendTo_heap (s : ServerState) (cid : Nat) (f : Frame) :
    (sendTo s cid f).heap = s.heap := rfl

@[simp] theorem sendTo_registry (s : ServerState) (cid : Nat) (f : Frame) :
    (sendTo s cid f).registry = s.registry := rfl

@[simp] theorem sendTo_tasks (s : ServerState) (cid : Nat) (f : Frame) :
    (sendTo s cid f).tasks = s.tasks := rfl

@[simp] theorem sendTo_trace (s : ServerState) (cid : Nat) (f : Frame) :
    (sendTo s cid f).trace = s.trace ++ [(cid, f)] := rfl

@[simp] theorem sendTo_clock (s : ServerState) (cid : Nat) (f : Frame) :
    (sendTo s cid f).clock = s.clock := rfl

@[simp] theorem sendTo_rvs (s : ServerState) (cid : Nat) (f : Frame) :
    (sendTo s cid f).rvs = s.rvs := rfl

@[simp] theorem sendTo_ras (s : ServerState) (cid : Nat) (f : Frame) :
    (sendTo s cid f).ras = s.ras := rfl

@[simp] theorem addTask_heap (s : ServerState) (t : SimTask) :
    (addTask s t).heap = s.heap := rfl

@[simp] theorem addTask_registry (s : ServerState) (t : SimTask) :
    (addTask s t).registry = s.registry := rfl

@[simp] theorem addTask_tasks (s : ServerState) (t : SimTask) :
    (addTask s t).tasks = s.tasks ++ [t] := rfl

@[simp] theorem addTask_trace (s : ServerState) (t : SimTask) :
    (addTask s t).trace = s.trace := rfl

@[simp] theorem addTask_clock (s : ServerState) (t : SimTask) :
    (addTask s t).clock = s.clock := rfl

@[simp] theorem addTask_rvs (s : ServerState) (t : SimTask) :
    (addTask s t).rvs = s.rvs := rfl

@[simp] theorem addTask_ras (s : ServerState) (t : SimTask) :
    (addTask s t).ras = s.ras := rfl

@[simp] theorem dropTask_heap (s : ServerState) (t : SimTask) :
    (dropTask s t).heap = s.heap := rfl

@[simp] theorem dropTask_registry (s : ServerState) (t : SimTask) :
    (dropTask s t).registry = s.registry := rfl

@[simp] theorem dropTask_tasks (s : ServerState) (t : SimTask) :
    (dropTask s t).tasks = removeOne t s.tasks := rfl

@[simp] theorem dropTask_trace (s : ServerState) (t : SimTask) :
    (dropTask s t).trace = s.trace := rfl

@[simp] theorem dropTask_clock (s : ServerState) (t : SimTask) :
    (dropTask s t).clock = s.clock := rfl

@[simp] theorem dropTask_rvs (s : ServerState) (t : SimTask) :
    (dropTask s t).rvs = s.rvs := rfl

@[simp] theorem dropTask_ras (s : ServerState) (t : SimTask) :
    (dropTask s t).ras = s.ras := rfl

@[simp] theorem updConn_registry (s : ServerState) (cid : Nat) (f : ConnObj → ConnObj) :
    (updConn s cid f).registry = s.registry := rfl

@[simp] theorem updConn_tasks (s : ServerState) (cid : Nat) (f : ConnObj → ConnObj) :
    (updConn s cid f).tasks = s.tasks := rfl

@[simp] theorem updConn_trace (s : ServerState) (cid : Nat) (f : ConnObj → ConnObj) :
    (updConn s cid f).trace = s.trace := rfl

@[simp] theorem updConn_heap (s : ServerState) (cid : Nat) (f : ConnObj → ConnObj) :
    (updConn s cid f).heap = updHeap cid f s.heap := rfl

@[simp] theorem lookupConn_sendTo (s : ServerState) (c : Nat) (f : Frame) (cid : Nat) :
    lookupConn (sendTo s c f) cid = lookupConn s cid := rfl

@[simp] theorem lookupConn_addTask (s : ServerState) (t : SimTask) (cid : Nat) :
    lookupConn (addTask s t) cid = lookupConn s cid := rfl

@[simp] theorem lookupConn_dropTask (s : ServerState) (t : SimTask) (cid : Nat) :
    lookupConn (dropTask s t) cid = lookupConn s cid := rfl

@[simp] theorem sessionOf_sendTo (s : ServerState) (c : Nat) (f : Frame) (cid : Nat) (d : String) :
    sessionOf (sendTo s c f) cid d = sessionOf s cid d := rfl

@[simp] theorem sessionOf_addTask (s : ServerState) (t : SimTask) (cid : Nat) (d : String) :
    sessionOf (addTask s t) cid d = sessionOf s cid d := rfl

@[simp] theorem sessionOf_dropTask (s : ServerState) (t : SimTask) (cid : Nat) (d : String) :
    sessionOf (dropTask s t) cid d = sessionOf s cid d := rfl

theorem lookupConn_some_heap {s : ServerState} {cid : Nat} {conn : ConnObj}
    (hl : lookupConn s cid = some conn) : alookup cid s.heap = some conn := by
  unfold lookupConn at hl
  split at hl
  · exact hl
  · exact absurd hl (by simp)

theorem sessionOf_updConn (s : ServerState) (cid : Nat) (f : ConnObj → ConnObj) (d : String) :
    sessionOf (updConn s cid f) cid d
      = match alookup cid s.heap with
        | none => none
        | some c => alookup d (f c).devices := by
  unfold sessionOf
  rw [updConn_heap, alookup_updHeap]
  cases alookup cid s.heap <;> rfl

/-! ## Step lemmas for the delayed callbacks -/

theorem fireTask_uploadFinish (s : ServerState) (cid : Nat) (deviceId code : String) :
    fireTask s (.uploadFinish cid deviceId code)
      = addTask (sendTo (dropTask s (.uploadFinish cid deviceId code)) cid
          (.codeUploaded deviceId code.length s.clock)) (.execChain cid deviceId code) := rfl

theorem fireTask_execFinish (s : ServerState) (cid : Nat) (deviceId out : String) :
    fireTask s (.execFinish cid deviceId out)
      = sendTo (dropTask s (.execFinish cid deviceId out)) cid
          (.codeExecuted deviceId out s.clock) := rfl

theorem fireTask_execChain_connected (s : ServerState) (cid : Nat) (conn : ConnObj)
    (deviceId code : String) (sess : DeviceSession)
    (hl : lookupConn s cid = some conn) (hsess : alookup deviceId conn.devices = some sess) :
    fireTask s (.execChain cid deviceId code)
      = addTask (dropTask s (.execChain cid deviceId code))
          (.execFinish cid deviceId (execOutput s.rvs s.ras code)) := by
  show handleExecuteCode (dropTask s (.execChain cid deviceId code)) cid deviceId code = _
  have hl2 : lookupConn (dropTask s (.execChain cid deviceId code)) cid = some conn := hl
  simp [handleExecuteCode, hl2, hsess]

/-- The state st0 is reachable: one connection step from the initial state. -/
theorem st0_reachable : Reachable st0 :=
  Reachable.step (Reachable.init zs zs) (SimStep.newConn (initServer zs zs))

/-! ## Lemmas about the simulated execution output -/

theorem lineOutput_trim_print_hello (rv ra : Nat) (l : String)
    (h : jsTrim l = "print(\x27hello\x27)") : lineOutput rv ra l = ["hello"] := by
  unfold lineOutput
  rw [h]
  have h1 : findPrint ("print(\x27hello\x27)").data = some "hello".data := by decide
  have h2 : findPrintF ("print(\x27hello\x27)").data = none := by decide
  have h3 : ("print(\x27hello\x27)").data.isEmpty = false := by decide
  have h4 : startsWithHash "print(\x27hello\x27)" = false := by decide
  have h5 : String.mk ("hello".data) = "hello" := rfl
  simp [lineOutCore, h1, h2, h3, h4, h5]

theorem mem_linesOutput {o l : String} {ls : List String} (rvs ras : Nat → Nat)
    (h : ∀ rv ra, o ∈ lineOutput rv ra l) (hm : l ∈ ls) :
    ∀ i, o ∈ linesOutput rvs ras i ls := by
  induction ls with
  | nil => cases hm
  | cons a as ih =>
    intro i
    rcases List.mem_cons.mp hm with rfl | hm2
    · exact List.mem_append_left _ (h (rvs i) (ras i))
    · exact List.mem_append_right _ (ih hm2 (i + 1))

/-! ## Claim theorems -/

/-- Claim C1 as stated fails on the code for prototype-chain deviceIds: for
the inherited Object.prototype property name constructor, which is not a
catalog id, the truthiness guard does not fire, so connectDevice on the
fresh client sends no frame at all (no error), schedules the delayed
completion, and once the delay elapses a DeviceSession keyed constructor is
created and deviceConnected is sent instead of an error. -/
theorem connect_inherited_key_creates_session :
    "constructor" ∉ catalogIds ∧
    (handleConnectDevice st0 1 "constructor" none 9600).trace = st0.trace ∧
    (SimTask.connectFinish 1 "constructor" none 9600)
      ∈ (handleConnectDevice st0 1 "constructor" none 9600).tasks ∧
    sessionOf (fireTask (handleConnectDevice st0 1 "constructor" none 9600)
        (.connectFinish 1 "constructor" none 9600)) 1 "constructor" = some sessCtor ∧
    (fireTask (handleConnectDevice st0 1 "constructor" none 9600)
        (.connectFinish 1 "constructor" none 9600)).trace
      = st0.trace ++ [(1, .deviceConnected "constructor" "" 9600)] := by
  decide

/-- Claim C1 amended: in every reachable server state, for a registered
connection and a deviceId that is neither a catalog id nor a property name
inherited from Object.prototype (for those the plain-object guard is
truthy and connectDevice proceeds instead), each of connectDevice,
disconnectDevice, getDeviceStatus, uploadCode and executeCode produces
exactly the input state with one error frame appended to the trace, so an
error is sent on the requesting connection and the connection's
device-session map is unchanged (no DeviceSession is created or removed,
and no delayed completion is scheduled). -/
theorem unknown_device_all_ops_error (s : ServerState) (cid : Nat) (conn : ConnObj)
    (deviceId : String) (pid : Option String) (baud : Nat) (code : String)
    (hr : Reachable s) (hl : lookupConn s cid = some conn)
    (hd : deviceId ∉ catalogIds) (hp : deviceId ∉ protoKeys) :
    handleConnectDevice s cid deviceId pid baud
      = sendTo s cid (.errorMsg ("Dispositivo no encontrado: " ++ deviceId)) ∧
    handleDisconnectDevice s cid deviceId
      = sendTo s cid (.errorMsg ("Dispositivo " ++ deviceId ++ " no está conectado")) ∧
    handleGetDeviceStatus s cid deviceId
      = sendTo s cid (.errorMsg ("Dispositivo " ++ deviceId ++ " no está conectado")) ∧
    handleUploadCode s cid deviceId code
      = sendTo s cid (.errorMsg ("Dispositivo " ++ deviceId ++ " no está conectado")) ∧
    handleExecuteCode s cid deviceId code
      = sendTo s cid (.errorMsg ("Dispositivo " ++ deviceId ++ " no está conectado")) := by
  have hwf := reachable_wf hr
  have halo : alookup cid s.heap = some conn := lookupConn_some_heap hl
  have hnone : alookup deviceId conn.devices = none :=
    alookup_none_of_keys (hwf.1 (cid, conn) (alookup_mem halo)) (not_or.mpr ⟨hd, hp⟩)
  refine ⟨?_, ?_, ?_, ?_, ?_⟩
  · simp [handleConnectDevice, hl, hd, hp]
  · simp [handleDisconnectDevice, hl, hnone]
  · simp [handleGetDeviceStatus, hl, hnone]
  · simp [handleUploadCode, hl, hnone]
  · simp [handleExecuteCode, hl, hnone]

/-- Witness for C1: the freshly connected client, asked about the unknown
device esp32, gets exactly the connect error and the device map stays
empty. -/
theorem unknown_device_all_ops_error_witness :
    lookupConn st0 1 = some { wsOpen := true, devices := [] } ∧
    "esp32" ∉ catalogIds ∧
    "esp32" ∉ protoKeys ∧
    handleConnectDevice st0 1 "esp32" none 9600
      = sendTo st0 1 (.errorMsg ("Dispositivo no encontrado: " ++ "esp32")) ∧
    handleUploadCode st0 1 "esp32" "x"
      = sendTo st0 1 (.errorMsg ("Dispositivo " ++ "esp32" ++ " no está conectado")) :=
  ⟨by decide, by decide, by decide,
   (unknown_device_all_ops_error st0 1 { wsOpen := true, devices := [] } "esp32" none 9600 "x"
     st0_reachable (by decide) (by decide) (by decide)).1,
   (unknown_device_all_ops_error st0 1 { wsOpen := true, devices := [] } "esp32" none 9600 "x"
     st0_reachable (by decide) (by decide) (by decide)).2.2.2.1⟩

/-- Claim C2: when the delayed completion of a second connectDevice fires
for a deviceId that this connection already has attached, it sends only the
already-connected error frame; the heap (hence the existing DeviceSession,
with its connectedAt) is untouched. -/
theorem duplicate_connect_error_keeps_session (s : ServerState) (cid : Nat) (conn : ConnObj)
    (deviceId : String) (sess : DeviceSession) (pid : Option String) (baud : Nat)
    (hheap : alookup cid s.heap = some conn)
    (hdev : alookup deviceId conn.devices = some sess) :
    fireTask s (.connectFinish cid deviceId pid baud)
      = sendTo (dropTask s (.connectFinish cid deviceId pid baud)) cid
          (.errorMsg ("Dispositivo " ++ deviceId ++ " ya está conectado")) ∧
    sessionOf (fireTask s (.connectFinish cid deviceId pid baud)) cid deviceId = some sess := by
  have h1 : fireTask s (.connectFinish cid deviceId pid baud)
      = connectDeviceFinish (dropTask s (.connectFinish cid deviceId pid baud))
          cid deviceId pid baud := rfl
  have h2 : alookup cid (dropTask s (.connectFinish cid deviceId pid baud)).heap
      = some conn := hheap
  constructor
  · rw [h1]
    simp [connectDeviceFinish, hheap, h2, hdev]
  · rw [h1]
    simp [connectDeviceFinish, hheap, h2, hdev, sessionOf]

/-- Witness for C2 on the concrete connected state stC. -/
theorem duplicate_connect_error_keeps_session_witness :
    fireTask stC (.connectFinish 1 "arduino-uno" none 9600)
      = sendTo (dropTask stC (.connectFinish 1 "arduino-uno" none 9600)) 1
          (.errorMsg ("Dispositivo " ++ "arduino-uno" ++ " ya está conectado")) ∧
    sessionOf (fireTask stC (.connectFinish 1 "arduino-uno" none 9600)) 1 "arduino-uno"
      = some sess0 :=
  duplicate_connect_error_keeps_session stC 1 conn0 "arduino-uno" sess0 none 9600
    (by decide) (by decide)

/-- Claim C3 fails on the code: after the transport of client 1 closes
while arduino-uno is attached, the telemetry interval is still armed (close
only deletes the registry entry and touches no timer), and its next firing
passes the liveness check on the captured connection object and still
performs a deviceData send for the closed connection, which even stays
armed afterwards. -/
theorem close_leaves_telemetry_timer_armed :
    (SimTask.telemetry 1 "arduino-uno") ∈ (wsClose stC 1).tasks ∧
    1 ∉ (wsClose stC 1).registry ∧
    (fireTask (wsClose stC 1) (.telemetry 1 "arduino-uno")).trace
      = (wsClose stC 1).trace ++ [(1, .deviceData "arduino-uno" 0)] ∧
    (SimTask.telemetry 1 "arduino-uno")
      ∈ (fireTask (wsClose stC 1) (.telemetry 1 "arduino-uno")).tasks := by
  decide

/-- Claim C4 as stated is false: the inter-firing interval of the telemetry
generator is not freshly sampled per firing from the random stream; the
code computes the setInterval period from the draw made at start only.  The
concrete stream taking value 500 times the index refutes it at the second
gap. -/
theorem telemetry_not_per_firing_jitter :
    ¬ (∀ (rs : Nat → Nat) (n : Nat), telemetryGap (rs 0) n = jitteredGap rs n) := by
  intro h
  exact absurd (h (fun k => 500 * k) 1) (by decide)

/-- Claim C4 amended: the telemetry generator is a fixed-rate setInterval
whose period is sampled once at start, uniformly in the window from 1000 ms
up to (but excluding) 3000 ms; every successive inter-frame interval equals
that single sampled period. -/
theorem telemetry_fixed_once_period (r n m : Nat) :
    telemetryGap r n = telemetryPeriod r ∧ telemetryGap r n = telemetryGap r m ∧
    1000 ≤ telemetryGap r n ∧ telemetryGap r n < 3000 := by
  have key : ∀ k, telemetryGap r k = telemetryPeriod r := by
    intro k
    unfold telemetryGap telemetryFireTime
    rw [Nat.succ_mul]
    omega
  refine ⟨key n, (key n).trans (key m).symm, ?_, ?_⟩
  · rw [key n]
    unfold telemetryPeriod
    omega
  · rw [key n]
    unfold telemetryPeriod
    omega

/-- Claim C5: disconnecting an attached device removes its session and
sends deviceDisconnected, and any later firing of that device's telemetry
interval finds the session gone, clears itself (the task is removed) and
sends nothing (the trace is unchanged). -/
theorem telemetry_self_cancel_after_disconnect :
    (∀ (s : ServerState) (cid : Nat) (conn : ConnObj) (deviceId : String),
       lookupConn s cid = some conn → (alookup deviceId conn.devices).isSome →
       sessionOf (handleDisconnectDevice s cid deviceId) cid deviceId = none ∧
       (handleDisconnectDevice s cid deviceId).trace
         = s.trace ++ [(cid, .deviceDisconnected deviceId)]) ∧
    (∀ (s : ServerState) (cid : Nat) (conn : ConnObj) (deviceId : String),
       alookup cid s.heap = some conn → alookup deviceId conn.devices = none →
       fireTask s (.telemetry cid deviceId) = dropTask s (.telemetry cid deviceId)) := by
  constructor
  · intro s cid conn deviceId hl hdev
    obtain ⟨sess, hsess⟩ := Option.isSome_iff_exists.mp hdev
    have halo := lookupConn_some_heap hl
    constructor
    · simp [handleDisconnectDevice, hl, hsess, sessionOf_updConn, halo, alookup_deleteDev]
    · simp [handleDisconnectDevice, hl, hsess]
  · intro s cid conn deviceId hheap hdev
    show telemetryFire s cid deviceId = _
    simp [telemetryFire, hheap, hdev]

/-- Witness for C5: disconnecting arduino-uno on the concrete connected
state, then firing the still-armed telemetry interval. -/
theorem telemetry_self_cancel_after_disconnect_witness :
    (sessionOf (handleDisconnectDevice stC 1 "arduino-uno") 1 "arduino-uno" = none ∧
     (handleDisconnectDevice stC 1 "arduino-uno").trace
       = stC.trace ++ [(1, .deviceDisconnected "arduino-uno")]) ∧
    fireTask (handleDisconnectDevice stC 1 "arduino-uno") (.telemetry 1 "arduino-uno")
      = dropTask (handleDisconnectDevice stC 1 "arduino-uno") (.telemetry 1 "arduino-uno") :=
  ⟨telemetry_self_cancel_after_disconnect.1 stC 1 conn0 "arduino-uno" (by decide) (by decide),
   telemetry_self_cancel_after_disconnect.2 (handleDisconnectDevice stC 1 "arduino-uno") 1
     { wsOpen := true, devices := [] } "arduino-uno" (by decide) (by decide)⟩

/-- Claim C6: for an uploadCode on an attached device, running the pipeline
to completion (the handler, its delayed completion, the automatic execute
chain and the delayed send, with no interleaved events) appends exactly one
codeUploaded frame carrying the code length and the timestamp, followed by
exactly one codeExecuted frame for the same code, with no executeCode
message from the client. -/
theorem upload_autochain_single_upload_execute (s : ServerState) (cid : Nat) (conn : ConnObj)
    (deviceId code : String) (hl : lookupConn s cid = some conn)
    (hdev : (alookup deviceId conn.devices).isSome) :
    (SimTask.uploadFinish cid deviceId code) ∈ (handleUploadCode s cid deviceId code).tasks ∧
    (chainRun s cid deviceId code).trace
      = s.trace ++ [(cid, .codeUploaded deviceId code.length s.clock),
                    (cid, .codeExecuted deviceId (execOutput s.rvs s.ras code) s.clock)] := by
  obtain ⟨sess, hsess⟩ := Option.isSome_iff_exists.mp hdev
  have e1 : handleUploadCode s cid deviceId code = addTask s (.uploadFinish cid deviceId code) := by
    simp [handleUploadCode, hl, hsess]
  constructor
  · rw [e1, addTask_tasks]
    simp
  · rw [chainRun, e1]
    simp [fireTask, uploadCodeFinish, handleExecuteCode, hl, hsess]

/-- Witness for C6 on the concrete connected state stC. -/
theorem upload_autochain_single_upload_execute_witness :
    (SimTask.uploadFinish 1 "arduino-uno" "x") ∈ (handleUploadCode stC 1 "arduino-uno" "x").tasks ∧
    (chainRun stC 1 "arduino-uno" "x").trace
      = stC.trace ++ [(1, .codeUploaded "arduino-uno" ("x".length) stC.clock),
                      (1, .codeExecuted "arduino-uno" (execOutput stC.rvs stC.ras "x") stC.clock)] :=
  upload_autochain_single_upload_execute stC 1 conn0 "arduino-uno" "x" (by decide) (by decide)

/-- Claim C7: in the simulated executeCode strategy, a line whose trimmed
text is the single-quoted print of hello contributes exactly the element
hello to the output; any code containing the substring led.on() always gets
the fixed LED-on marker line appended; and a non-empty non-comment line
matching neither print pattern contributes nothing. -/
theorem simulated_execute_output_patterns :
    (∀ (code : String) (rvs ras : Nat → Nat),
       (∃ l, l ∈ jsLines code ∧ jsTrim l = "print(\x27hello\x27)") →
       "hello" ∈ execOutputList rvs ras code) ∧
    (∀ (code : String) (rvs ras : Nat → Nat),
       jsIncludes code "led.on()" = true →
       "💡 LED encendido" ∈ execOutputList rvs ras code) ∧
    (∀ (rv ra : Nat) (line : String),
       findPrint (jsTrim line).data = none → findPrintF (jsTrim line).data = none →
       lineOutput rv ra line = []) := by
  refine ⟨?_, ?_, ?_⟩
  · rintro code rvs ras ⟨l, hm, ht⟩
    refine List.mem_append_left _ (mem_linesOutput rvs ras (fun rv ra => ?_) hm 0)
    rw [lineOutput_trim_print_hello rv ra l ht]
    simp
  · intro code rvs ras hinc
    refine List.mem_append_right _ ?_
    unfold cannedOutputs
    rw [hinc]
    simp
  · intro rv ra line h1 h2
    unfold lineOutput lineOutCore
    split
    · simp [h1, h2]
    · rfl

/-- Witness for C7 at concrete payloads. -/
theorem simulated_execute_output_patterns_witness :
    "hello" ∈ execOutputList zs zs "print(\x27hello\x27)" ∧
    "💡 LED encendido" ∈ execOutputList zs zs "led.on()" ∧
    lineOutput 0 0 "x = 1" = [] :=
  ⟨simulated_execute_output_patterns.1 "print(\x27hello\x27)" zs zs
     ⟨"print(\x27hello\x27)", by decide, by decide⟩,
   simulated_execute_output_patterns.2.1 "led.on()" zs zs (by decide),
   simulated_execute_output_patterns.2.2 0 0 "x = 1" (by decide) (by decide)⟩

/-- Claim C8: a message whose type is none of the eight recognized kinds
makes the dispatcher send exactly one error frame naming the unsupported
type; the registry, the heap (hence every device map) and the pending tasks
are unchanged. -/
theorem unknown_type_error_no_mutation (s : ServerState) (cid : Nat) (conn : ConnObj)
    (m : RawMsg) (hl : lookupConn s cid = some conn) (hm : m.type ∉ recognizedTypes) :
    handleMessage s cid m
      = sendTo s cid (.errorMsg ("Tipo de mensaje no soportado: " ++ m.type)) ∧
    (handleMessage s cid m).registry = s.registry ∧
    (handleMessage s cid m).heap = s.heap ∧
    (handleMessage s cid m).tasks = s.tasks := by
  simp only [recognizedTypes, List.mem_cons, List.not_mem_nil, or_false, not_or] at hm
  obtain ⟨n1, n2, n3, n4, n5, n6, n7, n8⟩ := hm
  have e : handleMessage s cid m
      = sendTo s cid (.errorMsg ("Tipo de mensaje no soportado: " ++ m.type)) := by
    simp [handleMessage, hl, n1, n2, n3, n4, n5, n6, n7, n8]
  refine ⟨e, ?_, ?_, ?_⟩ <;> rw [e] <;> rfl

/-- Witness for C8: the unsupported type frobnicate on the fresh client. -/
theorem unknown_type_error_no_mutation_witness :
    handleMessage st0 1 badMsg
      = sendTo st0 1 (.errorMsg ("Tipo de mensaje no soportado: " ++ badMsg.type)) ∧
    (handleMessage st0 1 badMsg).registry = st0.registry ∧
    (handleMessage st0 1 badMsg).heap = st0.heap ∧
    (handleMessage st0 1 badMsg).tasks = st0.tasks :=
  unknown_type_error_no_mutation st0 1 { wsOpen := true, devices := [] } badMsg
    (by decide) (by decide)

/-- Claim C9 fails on the code: on the concrete run where uploadCode was
accepted and the device then disconnected while the upload delay was
pending, the session is gone, the stale completion is still pending, and
firing it nevertheless sends a codeUploaded frame instead of dropping the
completion silently. -/
theorem stale_upload_completion_sends :
    sessionOf stStale 1 "arduino-uno" = none ∧
    (SimTask.uploadFinish 1 "arduino-uno" "x") ∈ stStale.tasks ∧
    (fireTask stStale (.uploadFinish 1 "arduino-uno" "x")).trace
      = stStale.trace ++ [(1, .codeUploaded "arduino-uno" 1 0)] := by
  decide

/-- Claim C9 amended: re-validation is partial.  The delayed uploadCode
completion performs no re-validation at all: for every state it sends
codeUploaded and schedules the automatic execute, even if the session was
removed or the connection closed during the delay.  Only the automatic
executeCode chain re-validates the connection: fired on an unregistered
connection it is dropped silently, with no state mutation and no frame. -/
theorem delayed_callbacks_revalidation_mixed :
    (∀ (s : ServerState) (cid : Nat) (deviceId code : String),
       fireTask s (.uploadFinish cid deviceId code)
         = addTask (sendTo (dropTask s (.uploadFinish cid deviceId code)) cid
             (.codeUploaded deviceId code.length s.clock)) (.execChain cid deviceId code)) ∧
    (∀ (s : ServerState) (cid : Nat) (deviceId code : String),
       lookupConn s cid = none →
       fireTask s (.execChain cid deviceId code) = dropTask s (.execChain cid deviceId code)) := by
  constructor
  · intro s cid deviceId code
    rfl
  · intro s cid deviceId code hnone
    show handleExecuteCode (dropTask s (.execChain cid deviceId code)) cid deviceId code = _
    have h2 : lookupConn (dropTask s (.execChain cid deviceId code)) cid = none := hnone
    simp [handleExecuteCode, h2]

/-- Witness for C9 amended at the empty initial server. -/
theorem delayed_callbacks_revalidation_mixed_witness :
    fireTask (initServer zs zs) (.uploadFinish 1 "arduino-uno" "x")
      = addTask (sendTo (dropTask (initServer zs zs) (.uploadFinish 1 "arduino-uno" "x")) 1
          (.codeUploaded "arduino-uno" ("x".length) 0)) (.execChain 1 "arduino-uno" "x") ∧
    fireTask (initServer zs zs) (.execChain 1 "arduino-uno" "x")
      = dropTask (initServer zs zs) (.execChain 1 "arduino-uno" "x") :=
  ⟨delayed_callbacks_revalidation_mixed.1 (initServer zs zs) 1 "arduino-uno" "x",
   delayed_callbacks_revalidation_mixed.2 (initServer zs zs) 1 "arduino-uno" "x" (by decide)⟩

/-- Claim C10: a line whose trimmed text is empty, or starts with the
comment character, contributes nothing to the simulated execution output,
whatever print patterns it contains. -/
theorem comment_lines_produce_no_output (rv ra : Nat) (line : String)
    (h : (jsTrim line).data.isEmpty = true ∨ startsWithHash (jsTrim line) = true) :
    lineOutput rv ra line = [] := by
  unfold lineOutput lineOutCore
  rcases h with h | h <;> simp [h]

/-- Witness for C10: a comment line that does contain a print pattern
still produces no output. -/
theorem comment_lines_produce_no_output_witness :
    startsWithHash (jsTrim "  # print(\x27hi\x27)") = true ∧
    findPrint (jsTrim "  # print(\x27hi\x27)").data = some "hi".data ∧
    lineOutput 3 7 "  # print(\x27hi\x27)" = [] :=
  ⟨by decide, by decide, comment_lines_produce_no_output 3 7 "  # print(\x27hi\x27)"
    (Or.inr (by decide))⟩
